import Mathlib

set_option linter.dupNamespace false

/-!
# Verification of the `entropy::path` random-walk generator

Shallow embedding of `src/include/entropy/path.hpp` (the `entropy::path`
namespace): the `RandomWalk` generator and the `WalkSimulation` aggregator.

Modelling conventions:
* C++ `double` values are modelled as exact rationals `ℚ`.
* The `std::mt19937` engine is modelled, as an external collaborator, by an
  abstract deterministic family `gen : Int → Nat → ℚ` mapping a seed to a
  stream of unit-interval samples; the engine state is the stream plus a
  cursor (`Rng`).  `std::uniform_real_distribution(a, b)` maps one raw unit
  sample `u` to `a + u * (b - a)` (the affine transport used by the common
  library implementations); `std::uniform_int_distribution(a, b)` maps one
  raw sample into `[a, b]` by scaling and clamping.
* `throw` is modelled by `Except Err`, with the two exception kinds used by
  the source (`std::invalid_argument`, `std::out_of_range`) and their
  messages.
* `std::sqrt` (used only for the random-start radius, whose numeric value no
  operation ever inspects afterwards) is abstracted by a deterministic
  executable function `sqrtQ`.
-/

namespace Entropy.Path

/-- Abstract pseudo-random engine state: the seed-determined stream of raw
unit-interval samples, plus the consumption cursor. Models the exclusive
`std::mt19937 rng_` member. -/
structure Rng where
  stream : Nat → ℚ
  idx : Nat

/-- Seeding the engine: `std::mt19937 rng_(seed)` / `rng_.seed(seed)`. -/
def Rng.ofSeed (gen : Int → Nat → ℚ) (seed : Int) : Rng :=
  ⟨gen seed, 0⟩

/-- Draw the next raw sample from the engine. -/
def Rng.next (r : Rng) : ℚ × Rng :=
  (r.stream r.idx, ⟨r.stream, r.idx + 1⟩)

/-- One sample of `std::uniform_real_distribution<double>(lo, hi)`:
affine transport of a raw unit sample. Consumes one draw. -/
def uniformReal (lo hi : ℚ) (r : Rng) : ℚ × Rng :=
  let u := r.next
  (lo + u.1 * (hi - lo), u.2)

/-- One sample of `std::uniform_int_distribution<int>(lo, hi)` (`lo ≤ hi`):
scales a raw unit sample into the inclusive range, clamped so the library's
range guarantee holds. Consumes one draw. -/
def uniformNat (lo hi : Nat) (r : Rng) : Nat × Rng :=
  let u := r.next
  (lo + min (hi - lo) (u.1 * ((hi : ℚ) - (lo : ℚ) + 1)).floor.toNat, u.2)

/-- `datapod::Point`: x, y, z triple. -/
structure Point where
  x : ℚ
  y : ℚ
  z : ℚ
deriving DecidableEq

/-- `datapod::Quaternion`: orientation placeholder; `Quaternion{}` is the
identity orientation. -/
structure Quaternion where
  w : ℚ := 1
  x : ℚ := 0
  y : ℚ := 0
  z : ℚ := 0
deriving DecidableEq

/-- `datapod::Pose`: point plus orientation. -/
structure Pose where
  point : Point
  orientation : Quaternion
deriving DecidableEq

instance : Inhabited Pose := ⟨⟨⟨0, 0, 0⟩, {}⟩⟩

/-- `datapod::Path`: ordered appendable sequence of poses. -/
structure Path where
  waypoints : List Pose
deriving DecidableEq

/-- `datapod::Size`. -/
structure Size where
  x : ℚ
  y : ℚ
  z : ℚ
deriving DecidableEq

/-- `datapod::Box`: center pose plus dimensions. -/
structure Box where
  center : Pose
  size : Size
deriving DecidableEq

/-- `enum class MovePattern`. -/
inductive MovePattern where
  | Neumann
  | Moore
deriving DecidableEq

/-- `enum class Direction`. -/
inductive Direction where
  | North
  | Northeast
  | East
  | Southeast
  | South
  | Southwest
  | West
  | Northwest
deriving DecidableEq

/-- `enum class WalkerType`. -/
inductive WalkerType where
  | Slow
  | Normal
  | Fast
  | Superhuman
deriving DecidableEq

/-- `struct WalkConfig` with its member defaults. -/
structure WalkConfig where
  seed : Int := 1337
  min_speed : ℚ := 1
  max_speed : ℚ := 3
  move_pattern : MovePattern := MovePattern.Moore
  random_start : Bool := true
  start_range_factor : ℚ := 1
deriving DecidableEq

/-- The two exception kinds thrown by the source, with their messages. -/
inductive Err where
  | invalidArgument (msg : String)
  | outOfRange (msg : String)
deriving DecidableEq

/-- `static_cast<Direction>(n)` for `n` in `[0, 7]`. -/
def directionOfNat : Nat → Direction
  | 0 => Direction.North
  | 1 => Direction.Northeast
  | 2 => Direction.East
  | 3 => Direction.Southeast
  | 4 => Direction.South
  | 5 => Direction.Southwest
  | 6 => Direction.West
  | _ => Direction.Northwest

/-- The Neumann index table `int directions[] = {0, 2, 4, 6}` of
`get_random_direction`. -/
def neumannTable : Nat → Nat
  | 0 => 0
  | 1 => 2
  | 2 => 4
  | _ => 6

/-- Executable deterministic abstraction of `std::sqrt`; only its determinism
matters (the random-start radius it feeds is never inspected by any
operation under verification). -/
def sqrtQ (q : ℚ) : ℚ :=
  (Nat.sqrt q.floor.toNat : ℚ)

/-- The `RandomWalk` object state: `total_steps_`, `config_`,
`walker_speed_`, `path_`, `rng_`. -/
structure RandomWalk where
  total_steps : Int
  config : WalkConfig
  walker_speed : ℚ
  path : Path
  rng : Rng

/-- `RandomWalk::get_random_speed`: one uniform draw from
`[min_speed, max_speed + max_speed * 0.025]`. -/
def get_random_speed (config : WalkConfig) (rng : Rng) : ℚ × Rng :=
  let superhuman_bonus := config.max_speed * (25 / 1000 : ℚ)
  uniformReal config.min_speed (config.max_speed + superhuman_bonus) rng

/-- The successful path of `RandomWalk::RandomWalk(total_steps, config)`:
seed the engine from `config.seed`, then `init_speed()`; the path starts
empty. -/
def RandomWalk.init (gen : Int → Nat → ℚ) (total_steps : Int)
    (config : WalkConfig) : RandomWalk :=
  let rng0 := Rng.ofSeed gen config.seed
  let d := get_random_speed config rng0
  ⟨total_steps, config, d.1, ⟨[]⟩, d.2⟩

/-- `RandomWalk::RandomWalk(total_steps, config)` including the
`total_steps <= 0` validation throw. -/
def RandomWalk.make (gen : Int → Nat → ℚ) (total_steps : Int)
    (config : WalkConfig) : Except Err RandomWalk :=
  if total_steps ≤ 0 then
    Except.error (Err.invalidArgument "total_steps must be positive")
  else
    Except.ok (RandomWalk.init gen total_steps config)

/-- `RandomWalk::get_random_startpoint`: two uniform draws (x then y) from
`[-range, range]` with `range = sqrt(total_steps) * start_range_factor`;
z is 0. -/
def get_random_startpoint (total_steps : Int) (config : WalkConfig)
    (rng : Rng) : Point × Rng :=
  let range := sqrtQ (total_steps : ℚ) * config.start_range_factor
  let dx := uniformReal (-range) range rng
  let dy := uniformReal (-range) range dx.2
  (⟨dx.1, dy.1, 0⟩, dy.2)

/-- `RandomWalk::get_random_direction`: Moore draws a uniform integer in
`[0, 7]` cast to `Direction`; Neumann draws a uniform integer in `[0, 3]`
and maps it through the `{0, 2, 4, 6}` index table. -/
def get_random_direction (pattern : MovePattern) (rng : Rng) :
    Direction × Rng :=
  match pattern with
  | MovePattern.Moore =>
    let d := uniformNat 0 7 rng
    (directionOfNat d.1, d.2)
  | MovePattern.Neumann =>
    let d := uniformNat 0 3 rng
    (directionOfNat (neumannTable d.1), d.2)

/-- The displacement switch of `RandomWalk::plan_next_step`: per-axis
displacement is `0` or `±walker_speed_`. -/
def stepDelta (speed : ℚ) : Direction → ℚ × ℚ
  | Direction.North => (0, speed)
  | Direction.Northeast => (speed, speed)
  | Direction.East => (speed, 0)
  | Direction.Southeast => (speed, -speed)
  | Direction.South => (0, -speed)
  | Direction.Southwest => (-speed, -speed)
  | Direction.West => (-speed, 0)
  | Direction.Northwest => (-speed, speed)

/-- `RandomWalk::plan_next_step`: append
`Pose{current + displacement, Quaternion{}}` (z carried through). -/
def plan_next_step (speed : ℚ) (direction : Direction) (current : Point)
    (waypoints : List Pose) : List Pose :=
  let d := stepDelta speed direction
  waypoints ++ [⟨⟨current.x + d.1, current.y + d.2, current.z⟩, {}⟩]

/-- The generation loop of `RandomWalk::generate`: for each step draw a
direction and extend from the last waypoint
(`path_.waypoints[path_.waypoints.size() - 1]`). -/
def stepLoop (pattern : MovePattern) (speed : ℚ) :
    Nat → List Pose → Rng → List Pose × Rng
  | 0, ws, rng => (ws, rng)
  | n + 1, ws, rng =>
    let d := get_random_direction pattern rng
    let ws' := plan_next_step speed d.1 (ws.getLastD default).point ws
    stepLoop pattern speed n ws' d.2

/-- `RandomWalk::generate`: clear the path, choose the start point (random
or origin), push the start pose, then run `total_steps_` steps. -/
def RandomWalk.generate (rw : RandomWalk) : RandomWalk :=
  let s :=
    if rw.config.random_start then
      get_random_startpoint rw.total_steps rw.config rw.rng
    else
      (⟨0, 0, 0⟩, rw.rng)
  let ws0 : List Pose := [⟨s.1, {}⟩]
  let r :=
    stepLoop rw.config.move_pattern rw.walker_speed rw.total_steps.toNat
      ws0 s.2
  { rw with path := ⟨r.1⟩, rng := r.2 }

/-- `RandomWalk::get_walker_type`: speed band classification. -/
def RandomWalk.get_walker_type (rw : RandomWalk) : WalkerType :=
  let range := rw.config.max_speed - rw.config.min_speed
  let threshold := range * (25 / 100 : ℚ)
  if rw.walker_speed < rw.config.min_speed + threshold then
    WalkerType.Slow
  else if rw.walker_speed ≥ rw.config.min_speed + threshold ∧
      rw.walker_speed < rw.config.max_speed - threshold then
    WalkerType.Normal
  else if rw.walker_speed ≥ rw.config.max_speed - threshold ∧
      rw.walker_speed ≤ rw.config.max_speed then
    WalkerType.Fast
  else
    WalkerType.Superhuman

/-- The band classifier as a pure function of `(min_speed, max_speed,
speed)` alone, for the refinement statement that `get_walker_type` reads
nothing else. -/
def walkerTypeOfSpeed (mn mx sp : ℚ) : WalkerType :=
  let range := mx - mn
  let threshold := range * (25 / 100 : ℚ)
  if sp < mn + threshold then WalkerType.Slow
  else if sp ≥ mn + threshold ∧ sp < mx - threshold then WalkerType.Normal
  else if sp ≥ mx - threshold ∧ sp ≤ mx then WalkerType.Fast
  else WalkerType.Superhuman

/-- `RandomWalk::set_seed`: store the seed, reseed the engine, redraw the
speed. -/
def RandomWalk.set_seed (gen : Int → Nat → ℚ) (rw : RandomWalk)
    (seed : Int) : RandomWalk :=
  let cfg := { rw.config with seed := seed }
  let rng0 := Rng.ofSeed gen seed
  let d := get_random_speed cfg rng0
  { rw with config := cfg, rng := d.2, walker_speed := d.1 }

/-- `RandomWalk::set_speed_range`: store the bounds and redraw the speed
from the continuing stream (no reseed). -/
def RandomWalk.set_speed_range (rw : RandomWalk) (mn mx : ℚ) : RandomWalk :=
  let cfg := { rw.config with min_speed := mn, max_speed := mx }
  let d := get_random_speed cfg rw.rng
  { rw with config := cfg, walker_speed := d.1, rng := d.2 }

/-- `RandomWalk::set_move_pattern`. -/
def RandomWalk.set_move_pattern (rw : RandomWalk) (pattern : MovePattern) :
    RandomWalk :=
  { rw with config := { rw.config with move_pattern := pattern } }

/-- `RandomWalk::set_random_start`. -/
def RandomWalk.set_random_start (rw : RandomWalk) (random_start : Bool) :
    RandomWalk :=
  { rw with config := { rw.config with random_start := random_start } }

/-- `RandomWalk::set_start_range_factor`. -/
def RandomWalk.set_start_range_factor (rw : RandomWalk) (factor : ℚ) :
    RandomWalk :=
  { rw with config := { rw.config with start_range_factor := factor } }

/-- `RandomWalk::get_speed`. -/
def RandomWalk.get_speed (rw : RandomWalk) : ℚ :=
  rw.walker_speed

/-- `RandomWalk::get_path`. -/
def RandomWalk.get_path (rw : RandomWalk) : Path :=
  rw.path

/-- `RandomWalk::get_total_steps`. -/
def RandomWalk.get_total_steps (rw : RandomWalk) : Int :=
  rw.total_steps

/-- The `WalkSimulation` object state. -/
structure WalkSimulation where
  total_steps : Int
  num_walkers_field : Int
  config : WalkConfig
  walkers : List RandomWalk

/-- The successful path of `WalkSimulation::WalkSimulation`: build walker
`i` with the base config except `seed = config.seed + i`. -/
def WalkSimulation.init (gen : Int → Nat → ℚ) (total_steps num_walkers : Int)
    (config : WalkConfig) : WalkSimulation :=
  ⟨total_steps, num_walkers, config,
    (List.range num_walkers.toNat).map fun (i : Nat) =>
      RandomWalk.init gen total_steps
        { config with seed := config.seed + (i : Int) }⟩

/-- `WalkSimulation::WalkSimulation` including the two validation throws
(`total_steps` checked first). -/
def WalkSimulation.make (gen : Int → Nat → ℚ) (total_steps num_walkers : Int)
    (config : WalkConfig) : Except Err WalkSimulation :=
  if total_steps ≤ 0 then
    Except.error (Err.invalidArgument "total_steps must be positive")
  else if num_walkers ≤ 0 then
    Except.error (Err.invalidArgument "num_walkers must be positive")
  else
    Except.ok (WalkSimulation.init gen total_steps num_walkers config)

/-- `WalkSimulation::generate`: regenerate every walker in order. -/
def WalkSimulation.generate (sim : WalkSimulation) : WalkSimulation :=
  { sim with walkers := sim.walkers.map RandomWalk.generate }

/-- `WalkSimulation::num_walkers`: `walkers_.size()`. -/
def WalkSimulation.num_walkers (sim : WalkSimulation) : Nat :=
  sim.walkers.length

/-- `WalkSimulation::get_walker`: bounds-checked access, throwing
`std::out_of_range` when `index >= walkers_.size()`. -/
def WalkSimulation.get_walker (sim : WalkSimulation) (index : Nat) :
    Except Err RandomWalk :=
  if h : index < sim.walkers.length then
    Except.ok (sim.walkers.get ⟨index, h⟩)
  else
    Except.error (Err.outOfRange "walker index out of range")

/-- `std::numeric_limits<double>::max()`, abstracted by a rational larger
than any finite double. -/
def dblMax : ℚ :=
  (2 : ℚ) ^ 1024

/-- The min/max scan of `WalkSimulation::get_bounds` over one walker's
waypoints; the accumulator is `(min_x, max_x, min_y, max_y)`. -/
def boundsFold (acc : ℚ × ℚ × ℚ × ℚ) (w : RandomWalk) : ℚ × ℚ × ℚ × ℚ :=
  w.path.waypoints.foldl
    (fun a pose =>
      (min a.1 pose.point.x, max a.2.1 pose.point.x,
        min a.2.2.1 pose.point.y, max a.2.2.2 pose.point.y))
    acc

/-- The non-empty branch of `WalkSimulation::get_bounds`: scan all
waypoints from the double-limit sentinels, then build the center/size box. -/
def computeBounds (walkers : List RandomWalk) : Box :=
  let a := walkers.foldl boundsFold (dblMax, -dblMax, dblMax, -dblMax)
  let center_x := (a.1 + a.2.1) / 2
  let center_y := (a.2.2.1 + a.2.2.2) / 2
  ⟨⟨⟨center_x, center_y, 0⟩, {}⟩, ⟨a.2.1 - a.1, a.2.2.2 - a.2.2.1, 0⟩⟩

/-- `WalkSimulation::get_bounds`: default box for an empty walker list,
otherwise the waypoint scan. -/
def WalkSimulation.get_bounds (sim : WalkSimulation) : Box :=
  if sim.walkers.isEmpty then
    ⟨⟨⟨0, 0, 0⟩, {}⟩, ⟨0, 0, 0⟩⟩
  else
    computeBounds sim.walkers

/-! ## Theorems -/

/-- Constant unit-interval sample family used by concrete witnesses. -/
def halfGen : Int → Nat → ℚ := fun _ _ => 1 / 2

/-- Each loop iteration appends exactly one waypoint. -/
theorem stepLoop_length (pattern : MovePattern) (speed : ℚ) :
    ∀ (n : Nat) (ws : List Pose) (rng : Rng),
      (stepLoop pattern speed n ws rng).1.length = ws.length + n
  | 0, _, _ => rfl
  | n + 1, ws, rng => by
    simp only [stepLoop]
    rw [stepLoop_length pattern speed n]
    simp [plan_next_step]
    omega

/-- C1: after any `generate()` call on a walker with `total_steps > 0` the
path holds exactly `total_steps + 1` waypoints, and `generate()` clears the
old path: its result does not depend on the path present beforehand, no
matter how many `generate()` calls produced it. -/
theorem generate_path_length (rw : RandomWalk) (h : 0 < rw.total_steps) :
    ((rw.generate.path.waypoints.length : Int) = rw.total_steps + 1) ∧
      ∀ p : Path,
        (RandomWalk.generate { rw with path := p }).path = rw.generate.path := by
  constructor
  · simp only [RandomWalk.generate]
    rw [stepLoop_length]
    simp
    omega
  · intro p
    rfl

/-- Concrete instantiation of `generate_path_length`. -/
theorem generate_path_length_witness :
    (0 : Int) < (RandomWalk.init halfGen 2 {}).total_steps ∧
      (((RandomWalk.init halfGen 2 {}).generate.path.waypoints.length : Int) =
        (RandomWalk.init halfGen 2 {}).total_steps + 1) ∧
      (RandomWalk.generate
          { RandomWalk.init halfGen 2 {} with path := ⟨[]⟩ }).path =
        (RandomWalk.init halfGen 2 {}).generate.path := by
  have h := generate_path_length (RandomWalk.init halfGen 2 {}) (by decide)
  exact ⟨by decide, h.1, h.2 ⟨[]⟩⟩

/-- C2: two walkers built from the identical `(total_steps, config)` draw
the same speed, and one `generate()` on each yields identical paths. -/
theorem make_deterministic (gen : Int → Nat → ℚ) (ts : Int)
    (cfg : WalkConfig) (rw1 rw2 : RandomWalk)
    (h1 : RandomWalk.make gen ts cfg = Except.ok rw1)
    (h2 : RandomWalk.make gen ts cfg = Except.ok rw2) :
    rw1.walker_speed = rw2.walker_speed ∧
      rw1.generate.path = rw2.generate.path := by
  have h := h1.symm.trans h2
  rw [Except.ok.injEq] at h
  subst h
  exact ⟨rfl, rfl⟩

/-- Concrete instantiation of `make_deterministic`. -/
theorem make_deterministic_witness :
    (RandomWalk.init halfGen 2 {}).walker_speed =
        (RandomWalk.init halfGen 2 {}).walker_speed ∧
      (RandomWalk.init halfGen 2 {}).generate.path =
        (RandomWalk.init halfGen 2 {}).generate.path :=
  make_deterministic halfGen 2 {} _ _ rfl rfl

/-- C5: construction of a `RandomWalk` fails (with `InvalidArgument`) iff
`total_steps ≤ 0`, construction of a `WalkSimulation` fails iff
`total_steps ≤ 0` or `num_walkers ≤ 0`, and nothing else is validated: any
config (an inverted speed range included) is accepted when the counts are
positive. -/
theorem construction_validation (gen : Int → Nat → ℚ) (ts nw : Int)
    (cfg : WalkConfig) :
    ((∃ msg, RandomWalk.make gen ts cfg =
        Except.error (Err.invalidArgument msg)) ↔ ts ≤ 0) ∧
      ((∃ e, RandomWalk.make gen ts cfg = Except.error e) ↔ ts ≤ 0) ∧
      ((∃ msg, WalkSimulation.make gen ts nw cfg =
          Except.error (Err.invalidArgument msg)) ↔ ts ≤ 0 ∨ nw ≤ 0) ∧
      ((∃ e, WalkSimulation.make gen ts nw cfg = Except.error e) ↔
        ts ≤ 0 ∨ nw ≤ 0) ∧
      (0 < ts →
        RandomWalk.make gen ts cfg =
          Except.ok (RandomWalk.init gen ts cfg)) ∧
      (0 < ts → 0 < nw →
        WalkSimulation.make gen ts nw cfg =
          Except.ok (WalkSimulation.init gen ts nw cfg)) := by
  by_cases hts : ts ≤ 0 <;> by_cases hnw : nw ≤ 0 <;>
    simp [RandomWalk.make, WalkSimulation.make, hts, hnw]

/-- Concrete instantiation of `construction_validation`: positive counts
are accepted, an inverted speed range included. -/
theorem construction_validation_witness :
    RandomWalk.make halfGen 3 { min_speed := 5, max_speed := 2 } =
        Except.ok
          (RandomWalk.init halfGen 3 { min_speed := 5, max_speed := 2 }) ∧
      WalkSimulation.make halfGen 3 2 {} =
        Except.ok (WalkSimulation.init halfGen 3 2 {}) :=
  ⟨(construction_validation halfGen 3 0
        { min_speed := 5, max_speed := 2 }).2.2.2.2.1 (by norm_num),
    (construction_validation halfGen 3 2 {}).2.2.2.2.2 (by norm_num)
      (by norm_num)⟩

/-- C9: `set_move_pattern`, `set_random_start` and `set_start_range_factor`
update only their configuration field; path, speed, step count and rng
state are untouched. -/
theorem setters_frame (rw : RandomWalk) (pattern : MovePattern) (b : Bool)
    (f : ℚ) :
    (rw.set_move_pattern pattern).path = rw.path ∧
      (rw.set_move_pattern pattern).walker_speed = rw.walker_speed ∧
      (rw.set_move_pattern pattern).total_steps = rw.total_steps ∧
      (rw.set_move_pattern pattern).rng = rw.rng ∧
      (rw.set_move_pattern pattern).config =
        { rw.config with move_pattern := pattern } ∧
      (rw.set_random_start b).path = rw.path ∧
      (rw.set_random_start b).walker_speed = rw.walker_speed ∧
      (rw.set_random_start b).total_steps = rw.total_steps ∧
      (rw.set_random_start b).rng = rw.rng ∧
      (rw.set_random_start b).config =
        { rw.config with random_start := b } ∧
      (rw.set_start_range_factor f).path = rw.path ∧
      (rw.set_start_range_factor f).walker_speed = rw.walker_speed ∧
      (rw.set_start_range_factor f).total_steps = rw.total_steps ∧
      (rw.set_start_range_factor f).rng = rw.rng ∧
      (rw.set_start_range_factor f).config =
        { rw.config with start_range_factor := f } :=
  ⟨rfl, rfl, rfl, rfl, rfl, rfl, rfl, rfl, rfl, rfl, rfl, rfl, rfl, rfl, rfl⟩

/-- The walker list built by the simulation constructor. -/
theorem sim_init_walkers (gen : Int → Nat → ℚ) (ts nw : Int)
    (cfg : WalkConfig) :
    (WalkSimulation.init gen ts nw cfg).walkers =
      (List.range nw.toNat).map (fun (i : Nat) =>
        RandomWalk.init gen ts { cfg with seed := cfg.seed + (i : Int) }) :=
  rfl

/-- C7: a simulation built from base seed `S` holds exactly `num_walkers`
walkers, walker `i` being constructed from the base config with
`seed = S + i` (so changing `S` shifts every walker's seed identically). -/
theorem sim_seed_fanout (gen : Int → Nat → ℚ) (ts nw : Int)
    (cfg : WalkConfig) (sim : WalkSimulation)
    (h : WalkSimulation.make gen ts nw cfg = Except.ok sim) :
    sim.walkers.length = nw.toNat ∧
      ∀ (i : Nat) (hi : i < sim.walkers.length),
        sim.walkers.get ⟨i, hi⟩ =
          RandomWalk.init gen ts { cfg with seed := cfg.seed + (i : Int) } ∧
        (sim.walkers.get ⟨i, hi⟩).config.seed = cfg.seed + (i : Int) := by
  by_cases hts : ts ≤ 0
  · simp [WalkSimulation.make, hts] at h
  by_cases hnw : nw ≤ 0
  · simp [WalkSimulation.make, hts, hnw] at h
  rw [WalkSimulation.make, if_neg hts, if_neg hnw, Except.ok.injEq] at h
  subst h
  constructor
  · rw [sim_init_walkers, List.length_map, List.length_range]
  · intro i hi
    have hg : (WalkSimulation.init gen ts nw cfg).walkers.get ⟨i, hi⟩ =
        RandomWalk.init gen ts { cfg with seed := cfg.seed + (i : Int) } := by
      have hi' : i < nw.toNat := by
        have := hi
        rw [sim_init_walkers, List.length_map, List.length_range] at this
        exact this
      show ((List.range nw.toNat).map (fun (j : Nat) =>
        RandomWalk.init gen ts
          { cfg with seed := cfg.seed + (j : Int) })).get ⟨i, _⟩ = _
      rw [List.get_eq_getElem, List.getElem_map, List.getElem_range]
    rw [hg]
    exact ⟨rfl, rfl⟩

/-- Concrete instantiation of `sim_seed_fanout`: two walkers from base seed
1337 get seeds 1337 and 1338. -/
theorem sim_seed_fanout_witness :
    (WalkSimulation.init halfGen 1 2 {}).walkers.length = 2 ∧
      ((WalkSimulation.init halfGen 1 2 {}).walkers.get
          ⟨0, by decide⟩).config.seed = 1337 ∧
      ((WalkSimulation.init halfGen 1 2 {}).walkers.get
          ⟨1, by decide⟩).config.seed = 1338 := by
  have h := sim_seed_fanout halfGen 1 2 {}
    (WalkSimulation.init halfGen 1 2 {}) rfl
  exact ⟨h.1, (h.2 0 (by decide)).2, (h.2 1 (by decide)).2⟩

/-- C8: `get_walker` raises `OutOfRange` exactly when the index is at least
the walker count, and otherwise returns walker `index` (the simulation
itself is a value, so a failed access leaves it unchanged). -/
theorem get_walker_bounds (sim : WalkSimulation) (index : Nat) :
    (sim.get_walker index =
        Except.error (Err.outOfRange "walker index out of range") ↔
      sim.num_walkers ≤ index) ∧
      ∀ h : index < sim.walkers.length,
        sim.get_walker index = Except.ok (sim.walkers.get ⟨index, h⟩) := by
  constructor
  · constructor
    · intro h
      by_contra hlt
      simp only [WalkSimulation.num_walkers, not_le] at hlt
      simp [WalkSimulation.get_walker, hlt] at h
    · intro h
      have : ¬ index < sim.walkers.length := by
        simp only [WalkSimulation.num_walkers] at h
        omega
      simp [WalkSimulation.get_walker, this]
  · intro h
    simp [WalkSimulation.get_walker, h]

/-- Concrete instantiation of `get_walker_bounds` on a one-walker
simulation: index 1 fails, index 0 succeeds. -/
theorem get_walker_bounds_witness :
    ((WalkSimulation.init halfGen 1 1 {}).get_walker 1 =
        Except.error (Err.outOfRange "walker index out of range")) ∧
      ((WalkSimulation.init halfGen 1 1 {}).get_walker 0 =
        Except.ok ((WalkSimulation.init halfGen 1 1 {}).walkers.get
          ⟨0, by decide⟩)) :=
  ⟨(get_walker_bounds (WalkSimulation.init halfGen 1 1 {}) 1).1.mpr
      (by decide),
    (get_walker_bounds (WalkSimulation.init halfGen 1 1 {}) 0).2 (by decide)⟩

/-- C10: `generate` — the only state-transforming operation — never
removes walkers, and every simulation reachable from the public
constructor (any number of `generate` calls after `make`) holds at least
one walker, so `get_bounds` always takes its non-empty branch (the
default-box branch is unreachable through the public interface). -/
theorem sim_walkers_nonempty (gen : Int → Nat → ℚ) (ts nw : Int)
    (cfg : WalkConfig) (sim : WalkSimulation)
    (h : WalkSimulation.make gen ts nw cfg = Except.ok sim) :
    (∀ s : WalkSimulation, s.generate.num_walkers = s.num_walkers) ∧
      ∀ k : Nat,
        1 ≤ (WalkSimulation.generate^[k] sim).num_walkers ∧
        (WalkSimulation.generate^[k] sim).walkers ≠ [] ∧
        (WalkSimulation.generate^[k] sim).get_bounds =
          computeBounds (WalkSimulation.generate^[k] sim).walkers := by
  have hpres : ∀ s : WalkSimulation, s.generate.num_walkers = s.num_walkers := by
    intro s
    simp [WalkSimulation.generate, WalkSimulation.num_walkers]
  by_cases hts : ts ≤ 0
  · simp [WalkSimulation.make, hts] at h
  by_cases hnw : nw ≤ 0
  · simp [WalkSimulation.make, hts, hnw] at h
  rw [WalkSimulation.make, if_neg hts, if_neg hnw, Except.ok.injEq] at h
  subst h
  refine ⟨hpres, ?_⟩
  have hnum : ∀ k : Nat,
      1 ≤ (WalkSimulation.generate^[k]
        (WalkSimulation.init gen ts nw cfg)).num_walkers := by
    intro k
    induction k with
    | zero =>
      rw [Function.iterate_zero_apply]
      show 1 ≤ (WalkSimulation.init gen ts nw cfg).walkers.length
      rw [sim_init_walkers, List.length_map, List.length_range]
      omega
    | succ k ih =>
      rw [Function.iterate_succ_apply', hpres]
      exact ih
  intro k
  have h1 := hnum k
  have hne : (WalkSimulation.generate^[k]
      (WalkSimulation.init gen ts nw cfg)).walkers ≠ [] := by
    intro hempty
    rw [show (WalkSimulation.generate^[k]
        (WalkSimulation.init gen ts nw cfg)).num_walkers =
        (WalkSimulation.generate^[k]
          (WalkSimulation.init gen ts nw cfg)).walkers.length from rfl,
      hempty] at h1
    simp at h1
  refine ⟨h1, hne, ?_⟩
  simp [WalkSimulation.get_bounds, List.isEmpty_iff, hne]

/-- Concrete instantiation of `sim_walkers_nonempty`, at the post-generate
state of a one-walker simulation. -/
theorem sim_walkers_nonempty_witness :
    1 ≤ (WalkSimulation.generate^[1]
        (WalkSimulation.init halfGen 1 1 {})).num_walkers ∧
      (WalkSimulation.generate^[1]
        (WalkSimulation.init halfGen 1 1 {})).walkers ≠ [] ∧
      (WalkSimulation.generate^[1]
        (WalkSimulation.init halfGen 1 1 {})).get_bounds =
        computeBounds (WalkSimulation.generate^[1]
          (WalkSimulation.init halfGen 1 1 {})).walkers :=
  (sim_walkers_nonempty halfGen 1 1 {} (WalkSimulation.init halfGen 1 1 {})
    rfl).2 1

/-- Band characterization of the pure classifier, for a positive range. -/
theorem walkerTypeOfSpeed_bands (mn mx sp : ℚ) (h : 0 < mx - mn) :
    (walkerTypeOfSpeed mn mx sp = WalkerType.Slow ↔
        sp < mn + (mx - mn) * (25 / 100 : ℚ)) ∧
      (walkerTypeOfSpeed mn mx sp = WalkerType.Normal ↔
        mn + (mx - mn) * (25 / 100 : ℚ) ≤ sp ∧
          sp < mx - (mx - mn) * (25 / 100 : ℚ)) ∧
      (walkerTypeOfSpeed mn mx sp = WalkerType.Fast ↔
        mx - (mx - mn) * (25 / 100 : ℚ) ≤ sp ∧ sp ≤ mx) ∧
      (walkerTypeOfSpeed mn mx sp = WalkerType.Superhuman ↔ mx < sp) := by
  unfold walkerTypeOfSpeed
  dsimp only
  set t := (mx - mn) * (25 / 100 : ℚ) with htdef
  have ht : 0 < t := by
    rw [htdef]
    positivity
  have hband : mn + t ≤ mx - t := by
    rw [htdef]
    linarith
  split_ifs with h1 h2 h3
  · refine ⟨⟨fun _ => h1, fun _ => rfl⟩, ?_, ?_, ?_⟩
    · exact ⟨fun hc => absurd hc (by decide),
        fun hc => absurd h1 (not_lt.mpr hc.1)⟩
    · exact ⟨fun hc => absurd hc (by decide),
        fun hc => absurd h1 (not_lt.mpr (le_trans hband hc.1))⟩
    · refine ⟨fun hc => absurd hc (by decide), fun hc => ?_⟩
      exfalso
      linarith
  · refine ⟨?_, ⟨fun _ => ⟨h2.1, h2.2⟩, fun _ => rfl⟩, ?_, ?_⟩
    · exact ⟨fun hc => absurd hc (by decide), fun hc => absurd hc h1⟩
    · refine ⟨fun hc => absurd hc (by decide), fun hc => ?_⟩
      exact absurd h2.2 (not_lt.mpr hc.1)
    · refine ⟨fun hc => absurd hc (by decide), fun hc => ?_⟩
      exfalso
      linarith [h2.2]
  · refine ⟨?_, ?_, ⟨fun _ => ⟨h3.1, h3.2⟩, fun _ => rfl⟩, ?_⟩
    · exact ⟨fun hc => absurd hc (by decide), fun hc => absurd hc h1⟩
    · refine ⟨fun hc => absurd hc (by decide), fun hc => ?_⟩
      exact absurd ⟨le_of_not_lt h1, hc.2⟩ h2
    · refine ⟨fun hc => absurd hc (by decide), fun hc => ?_⟩
      exact absurd h3.2 (not_le.mpr hc)
  · push_neg at h1 h2 h3
    have hgt : mx < sp := h3 (h2 h1)
    refine ⟨?_, ?_, ?_, ⟨fun _ => hgt, fun _ => rfl⟩⟩
    · exact ⟨fun hc => absurd hc (by decide),
        fun hc => absurd hc (not_lt.mpr h1)⟩
    · refine ⟨fun hc => absurd hc (by decide), fun hc => ?_⟩
      exact absurd hc.2 (not_lt.mpr (h2 h1))
    · refine ⟨fun hc => absurd hc (by decide), fun hc => ?_⟩
      exact absurd hgt (not_lt.mpr hc.2)

/-- C3: `get_walker_type` is a function of `(min_speed, max_speed, speed)`
alone, and — given a positive speed range — classifies by the four
boundary-closed bands `[min, min+t)`, `[min+t, max-t)`, `[max-t, max]`,
`(max, ∞)` with `t = 0.25 × (max - min)`, which partition
`[min, max + 0.025 × max]` without gaps. -/
theorem walker_type_bands (rw : RandomWalk)
    (h : 0 < rw.config.max_speed - rw.config.min_speed) :
    rw.get_walker_type =
        walkerTypeOfSpeed rw.config.min_speed rw.config.max_speed
          rw.walker_speed ∧
      (rw.get_walker_type = WalkerType.Slow ↔
        rw.walker_speed < rw.config.min_speed +
          (rw.config.max_speed - rw.config.min_speed) * (25 / 100 : ℚ)) ∧
      (rw.get_walker_type = WalkerType.Normal ↔
        rw.config.min_speed +
            (rw.config.max_speed - rw.config.min_speed) * (25 / 100 : ℚ) ≤
          rw.walker_speed ∧
        rw.walker_speed < rw.config.max_speed -
          (rw.config.max_speed - rw.config.min_speed) * (25 / 100 : ℚ)) ∧
      (rw.get_walker_type = WalkerType.Fast ↔
        rw.config.max_speed -
            (rw.config.max_speed - rw.config.min_speed) * (25 / 100 : ℚ) ≤
          rw.walker_speed ∧
        rw.walker_speed ≤ rw.config.max_speed) ∧
      (rw.get_walker_type = WalkerType.Superhuman ↔
        rw.config.max_speed < rw.walker_speed) :=
  ⟨rfl,
    walkerTypeOfSpeed_bands rw.config.min_speed rw.config.max_speed
      rw.walker_speed h⟩

/-- Concrete instantiation of `walker_type_bands` at the default config. -/
theorem walker_type_bands_witness :
    0 < (RandomWalk.init halfGen 1 {}).config.max_speed -
        (RandomWalk.init halfGen 1 {}).config.min_speed ∧
      ((RandomWalk.init halfGen 1 {}).get_walker_type =
          WalkerType.Superhuman ↔
        (RandomWalk.init halfGen 1 {}).config.max_speed <
          (RandomWalk.init halfGen 1 {}).walker_speed) :=
  ⟨by norm_num [RandomWalk.init],
    (walker_type_bands (RandomWalk.init halfGen 1 {})
      (by norm_num [RandomWalk.init])).2.2.2.2⟩

/-- "Exactly one of the two axes differs, never both": the Neumann clause
of the step-structure claim. -/
def exactlyOneAxisDiffers (p q : Pose) : Prop :=
  (q.point.x = p.point.x ∧ q.point.y ≠ p.point.y) ∨
    (q.point.x ≠ p.point.x ∧ q.point.y = p.point.y)

instance (p q : Pose) : Decidable (exactlyOneAxisDiffers p q) := by
  unfold exactlyOneAxisDiffers
  infer_instance

/-- The per-step relation claimed for consecutive waypoints: each axis
moves by `0` or exactly `±speed` and `z` is carried through —
unconditionally; under the Neumann topology, provided the speed is
nonzero, exactly one of the two axes changes. -/
def stepRel (speed : ℚ) (pattern : MovePattern) (p q : Pose) : Prop :=
  (q.point.x - p.point.x = 0 ∨ q.point.x - p.point.x = speed ∨
      q.point.x - p.point.x = -speed) ∧
    (q.point.y - p.point.y = 0 ∨ q.point.y - p.point.y = speed ∨
      q.point.y - p.point.y = -speed) ∧
    q.point.z = p.point.z ∧
    (pattern = MovePattern.Neumann → speed ≠ 0 →
      exactlyOneAxisDiffers p q)

instance (speed : ℚ) (pattern : MovePattern) (p q : Pose) :
    Decidable (stepRel speed pattern p q) := by
  unfold stepRel
  infer_instance

/-- The Neumann index table only yields the four cardinal directions. -/
theorem neumannTable_cases (n : Nat) :
    directionOfNat (neumannTable n) = Direction.North ∨
      directionOfNat (neumannTable n) = Direction.East ∨
      directionOfNat (neumannTable n) = Direction.South ∨
      directionOfNat (neumannTable n) = Direction.West := by
  match n with
  | 0 => exact Or.inl rfl
  | 1 => exact Or.inr (Or.inl rfl)
  | 2 => exact Or.inr (Or.inr (Or.inl rfl))
  | n + 3 => exact Or.inr (Or.inr (Or.inr rfl))

/-- A single planned step satisfies the per-step relation whenever the
direction came from `get_random_direction` for the same pattern. -/
theorem stepRel_step (speed : ℚ) (pattern : MovePattern)
    (rng : Rng) (p : Pose) :
    stepRel speed pattern p
      ⟨⟨p.point.x + (stepDelta speed (get_random_direction pattern rng).1).1,
        p.point.y + (stepDelta speed (get_random_direction pattern rng).1).2,
        p.point.z⟩, {}⟩ := by
  cases pattern
  case Moore =>
    cases hd : (get_random_direction MovePattern.Moore rng).1 <;>
      simp [stepRel, stepDelta, exactlyOneAxisDiffers]
  case Neumann =>
    have hd : (get_random_direction MovePattern.Neumann rng).1 =
        directionOfNat (neumannTable (uniformNat 0 3 rng).1) := rfl
    rw [hd]
    rcases neumannTable_cases (uniformNat 0 3 rng).1 with h | h | h | h <;>
      rw [h] <;> simp [stepRel, stepDelta, exactlyOneAxisDiffers]

/-- The loop preserves the chain of the per-step relation. -/
theorem stepLoop_chain (speed : ℚ) (pattern : MovePattern) :
    ∀ (n : Nat) (ws : List Pose) (rng : Rng), ws ≠ [] →
      List.Chain' (stepRel speed pattern) ws →
      List.Chain' (stepRel speed pattern) (stepLoop pattern speed n ws rng).1
  | 0, _, _, _, hch => hch
  | n + 1, ws, rng, hne, hch => by
    simp only [stepLoop]
    refine stepLoop_chain speed pattern n _ _ ?_ ?_
    · simp [plan_next_step]
    · unfold plan_next_step
      refine List.Chain'.append hch (List.chain'_singleton _) ?_
      intro x hx y hy
      have hx' : ws.getLastD default = x := by
        rw [List.getLastD_eq_getLast?, Option.mem_def.mp hx]
        rfl
      have hy' : y =
          ⟨⟨(ws.getLastD default).point.x +
              (stepDelta speed (get_random_direction pattern rng).1).1,
            (ws.getLastD default).point.y +
              (stepDelta speed (get_random_direction pattern rng).1).2,
            (ws.getLastD default).point.z⟩, {}⟩ := by
        simpa using hy.symm
      rw [← hx', hy']
      exact stepRel_step speed pattern rng (ws.getLastD default)

/-- The loop only ever appends: its input list is a prefix of its output. -/
theorem stepLoop_expand (pattern : MovePattern) (speed : ℚ) :
    ∀ (n : Nat) (ws : List Pose) (rng : Rng),
      ∃ t, (stepLoop pattern speed n ws rng).1 = ws ++ t
  | 0, ws, _ => ⟨[], (List.append_nil ws).symm⟩
  | n + 1, ws, rng => by
    simp only [stepLoop]
    obtain ⟨t, ht⟩ :=
      stepLoop_expand pattern speed n
        (plan_next_step speed (get_random_direction pattern rng).1
          (ws.getLastD default).point ws)
        (get_random_direction pattern rng).2
    rw [ht]
    unfold plan_next_step
    exact ⟨_, (List.append_assoc ws _ t)⟩

/-- C4: on every generated path consecutive waypoints differ by `0` or
exactly `±speed` on each axis independently and `z` is carried through
(and is `0` from the start pose on) — unconditionally; under the Neumann
topology, provided the drawn speed is nonzero, exactly one axis differs
per step, never both. -/
theorem generate_step_structure (rw : RandomWalk) :
    List.Chain' (stepRel rw.walker_speed rw.config.move_pattern)
      rw.generate.path.waypoints ∧
      ∀ p ∈ rw.generate.path.waypoints.head?, p.point.z = 0 := by
  constructor
  · simp only [RandomWalk.generate]
    exact stepLoop_chain rw.walker_speed rw.config.move_pattern
      rw.total_steps.toNat _ _ (by simp) (List.chain'_singleton _)
  · intro p hp
    simp only [RandomWalk.generate] at hp
    obtain ⟨t, ht⟩ :=
      stepLoop_expand rw.config.move_pattern rw.walker_speed
        rw.total_steps.toNat
        [⟨(if rw.config.random_start then
            get_random_startpoint rw.total_steps rw.config rw.rng
          else (⟨0, 0, 0⟩, rw.rng)).1, {}⟩]
        (if rw.config.random_start then
            get_random_startpoint rw.total_steps rw.config rw.rng
          else (⟨0, 0, 0⟩, rw.rng)).2
    rw [ht] at hp
    simp only [List.cons_append, List.head?_cons, Option.mem_def,
      Option.some.injEq] at hp
    subst hp
    split
    · rfl
    · rfl

/-- Concrete instantiation of `generate_step_structure` under the Neumann
topology. -/
theorem generate_step_structure_witness :
    List.Chain'
        (stepRel
          (RandomWalk.init halfGen 2
            { move_pattern := MovePattern.Neumann }).walker_speed
          (RandomWalk.init halfGen 2
            { move_pattern := MovePattern.Neumann }).config.move_pattern)
        (RandomWalk.init halfGen 2
          { move_pattern := MovePattern.Neumann }).generate.path.waypoints ∧
      ∀ p ∈ (RandomWalk.init halfGen 2
          { move_pattern :=
            MovePattern.Neumann }).generate.path.waypoints.head?,
        p.point.z = 0 :=
  generate_step_structure
    (RandomWalk.init halfGen 2 { move_pattern := MovePattern.Neumann })

/-- Constant zero sample family (a valid unit-interval stream). -/
def zeroGen : Int → Nat → ℚ := fun _ _ => 0

/-- With a zero speed every direction displaces by zero on both axes. -/
theorem stepDelta_zero (d : Direction) : stepDelta 0 d = (0, 0) := by
  cases d <;> simp [stepDelta]

/-- No pose differs from itself on exactly one axis. -/
theorem not_exactlyOneAxisDiffers_same_point (p q : Pose)
    (hpq : q.point = p.point) : ¬ exactlyOneAxisDiffers p q := by
  intro h
  unfold exactlyOneAxisDiffers at h
  rcases h with ⟨_, hy⟩ | ⟨hx, _⟩
  · exact hy (by rw [hpq])
  · exact hx (by rw [hpq])

/-- C4 as stated fails when the drawn speed is `0` (reachable with
`min_speed = max_speed = 0`, which construction accepts): a Neumann step
then changes neither axis, contradicting the unconditional "exactly one
of the two axes differs per step, never both". -/
theorem step_structure_counterexample :
    (RandomWalk.init zeroGen 1
        ({ min_speed := 0, max_speed := 0,
           move_pattern := MovePattern.Neumann,
           random_start := false } : WalkConfig)).walker_speed = 0 ∧
      (RandomWalk.init zeroGen 1
        ({ min_speed := 0, max_speed := 0,
           move_pattern := MovePattern.Neumann,
           random_start := false } : WalkConfig)).config.move_pattern =
        MovePattern.Neumann ∧
      ¬ List.Chain' exactlyOneAxisDiffers
        (RandomWalk.init zeroGen 1
          ({ min_speed := 0, max_speed := 0,
             move_pattern := MovePattern.Neumann,
             random_start := false } : WalkConfig)).generate.path.waypoints := by
  have hspeed : (RandomWalk.init zeroGen 1
      ({ min_speed := 0, max_speed := 0,
         move_pattern := MovePattern.Neumann,
         random_start := false } : WalkConfig)).walker_speed = 0 := by
    norm_num [RandomWalk.init, get_random_speed, uniformReal, Rng.next,
      Rng.ofSeed, zeroGen]
  refine ⟨hspeed, rfl, ?_⟩
  intro hch
  rw [show (RandomWalk.init zeroGen 1
      ({ min_speed := 0, max_speed := 0,
         move_pattern := MovePattern.Neumann,
         random_start := false } : WalkConfig)).generate.path.waypoints =
      (stepLoop MovePattern.Neumann
        (RandomWalk.init zeroGen 1
          ({ min_speed := 0, max_speed := 0,
             move_pattern := MovePattern.Neumann,
             random_start := false } : WalkConfig)).walker_speed 1
        [⟨⟨0, 0, 0⟩, {}⟩]
        (RandomWalk.init zeroGen 1
          ({ min_speed := 0, max_speed := 0,
             move_pattern := MovePattern.Neumann,
             random_start := false } : WalkConfig)).rng).1 from rfl,
    hspeed] at hch
  simp only [stepLoop, plan_next_step, stepDelta_zero,
    List.singleton_append] at hch
  rw [List.chain'_pair] at hch
  refine not_exactlyOneAxisDiffers_same_point _ _ ?_ hch
  simp

/-- C6 as stated fails: with unit-interval samples and
`min_speed ≤ max_speed` but both negative (here `-1`), the derived sampling
interval `[-1, -1.025]` is inverted and the drawn speed `-1` exceeds
`max_speed × 1.025 = -1.025`. -/
theorem speed_bounds_counterexample :
    (({ min_speed := -1, max_speed := -1 } : WalkConfig)).min_speed ≤
        (({ min_speed := -1, max_speed := -1 } : WalkConfig)).max_speed ∧
      (0 : ℚ) ≤ zeroGen 1337 0 ∧ zeroGen 1337 0 ≤ 1 ∧
      ¬((RandomWalk.init zeroGen 1
            ({ min_speed := -1, max_speed := -1 } : WalkConfig)).walker_speed ≤
          (({ min_speed := -1, max_speed := -1 } : WalkConfig)).max_speed *
            (1025 / 1000 : ℚ)) := by
  refine ⟨by norm_num, by norm_num [zeroGen], by norm_num [zeroGen], ?_⟩
  norm_num [RandomWalk.init, get_random_speed, uniformReal, Rng.next,
    Rng.ofSeed, zeroGen]

/-- One speed draw stays inside `[min_speed, max_speed × 1.025]` when the
raw sample is in the unit interval and `0 ≤ min_speed ≤ max_speed` makes
the interval well-oriented. -/
theorem get_random_speed_bounds (cfg : WalkConfig) (r : Rng)
    (hu0 : 0 ≤ r.stream r.idx) (hu1 : r.stream r.idx ≤ 1)
    (hmm : cfg.min_speed ≤ cfg.max_speed) (hmx : 0 ≤ cfg.max_speed) :
    cfg.min_speed ≤ (get_random_speed cfg r).1 ∧
      (get_random_speed cfg r).1 ≤ cfg.max_speed * (1025 / 1000 : ℚ) := by
  simp only [get_random_speed, uniformReal, Rng.next]
  have hb : 0 ≤ cfg.max_speed * (25 / 1000 : ℚ) :=
    mul_nonneg hmx (by norm_num)
  have hw : 0 ≤ cfg.max_speed + cfg.max_speed * (25 / 1000 : ℚ) -
      cfg.min_speed := by linarith
  have h1 : 0 ≤ r.stream r.idx *
      (cfg.max_speed + cfg.max_speed * (25 / 1000 : ℚ) - cfg.min_speed) :=
    mul_nonneg hu0 hw
  have h2 : r.stream r.idx *
      (cfg.max_speed + cfg.max_speed * (25 / 1000 : ℚ) - cfg.min_speed) ≤
      cfg.max_speed + cfg.max_speed * (25 / 1000 : ℚ) - cfg.min_speed :=
    mul_le_of_le_one_left hw hu1
  constructor <;> linarith

/-- C6 (amended): assuming unit-interval raw samples and a well-oriented
range `min_speed ≤ max_speed` with `0 ≤ max_speed`, the drawn speed — at
construction, after `set_seed`, and after `set_speed_range` — always lies
in `[min_speed, max_speed × 1.025]` inclusive. -/
theorem speed_bounds (gen : Int → Nat → ℚ)
    (hgen : ∀ sd i, 0 ≤ gen sd i ∧ gen sd i ≤ 1)
    (ts : Int) (cfg : WalkConfig)
    (hmm : cfg.min_speed ≤ cfg.max_speed) (hmx : 0 ≤ cfg.max_speed)
    (rw : RandomWalk)
    (hr : ∀ i, 0 ≤ rw.rng.stream i ∧ rw.rng.stream i ≤ 1)
    (hrm : rw.config.min_speed ≤ rw.config.max_speed)
    (hrx : 0 ≤ rw.config.max_speed)
    (sd : Int) (mn mx : ℚ) (hm2 : mn ≤ mx) (hx2 : 0 ≤ mx) :
    (cfg.min_speed ≤ (RandomWalk.init gen ts cfg).walker_speed ∧
        (RandomWalk.init gen ts cfg).walker_speed ≤
          cfg.max_speed * (1025 / 1000 : ℚ)) ∧
      (rw.config.min_speed ≤ (rw.set_seed gen sd).walker_speed ∧
        (rw.set_seed gen sd).walker_speed ≤
          rw.config.max_speed * (1025 / 1000 : ℚ)) ∧
      (mn ≤ (rw.set_speed_range mn mx).walker_speed ∧
        (rw.set_speed_range mn mx).walker_speed ≤
          mx * (1025 / 1000 : ℚ)) := by
  refine ⟨?_, ?_, ?_⟩
  · exact get_random_speed_bounds cfg (Rng.ofSeed gen cfg.seed)
      (hgen cfg.seed 0).1 (hgen cfg.seed 0).2 hmm hmx
  · exact get_random_speed_bounds { rw.config with seed := sd }
      (Rng.ofSeed gen sd) (hgen sd 0).1 (hgen sd 0).2 hrm hrx
  · exact get_random_speed_bounds
      { rw.config with min_speed := mn, max_speed := mx } rw.rng
      (hr rw.rng.idx).1 (hr rw.rng.idx).2 hm2 hx2

/-- Unit-interval bound for the constant half stream. -/
theorem halfGen_unit (sd : Int) (i : Nat) :
    0 ≤ halfGen sd i ∧ halfGen sd i ≤ 1 := by
  constructor <;> norm_num [halfGen]

/-- Concrete instantiation of `speed_bounds` at the default config. -/
theorem speed_bounds_witness :
    ({} : WalkConfig).min_speed ≤
        (RandomWalk.init halfGen 1 {}).walker_speed ∧
      (RandomWalk.init halfGen 1 {}).walker_speed ≤
        ({} : WalkConfig).max_speed * (1025 / 1000 : ℚ) :=
  (speed_bounds halfGen halfGen_unit 1 {}
    (by norm_num) (by norm_num)
    (RandomWalk.init halfGen 1 {})
    (fun i => halfGen_unit 1337 i)
    (by norm_num [RandomWalk.init]) (by norm_num [RandomWalk.init])
    7 1 2 (by norm_num) (by norm_num)).1

end Entropy.Path
